import Mathlib

/-
Shallow embedding of src/RPiMusic/rpimusicd.py.

The daemon consumes AMQP messages carrying a playlist URL, persists the URL
to a JSON cache file, and restarts an external media player (mpv) with it.
Python values arising here are modelled by a small JSON AST; Python
exceptions by the `PyErr` type; observable side effects (file writes,
broker acks/nacks, process spawns and signals) by an emitted `Event` trace.
-/

namespace RPiMusic

/-- JSON values, as produced by Python json.loads.  Arrays and objects are
encoded as their own cons-spines (`arrCons ... arrNil`, `objCons ... objNil`)
so that the type is a plain (non-nested) inductive. -/
inductive Json where
  | str (s : String)
  | num (n : Int)
  | bool (b : Bool)
  | null
  | arrNil
  | arrCons (hd : Json) (tl : Json)
  | objNil
  | objCons (key : String) (val : Json) (tl : Json)
  deriving DecidableEq, Repr

/-- Python exceptions relevant to rpimusicd.  UnicodeDecodeError and
json.JSONDecodeError are both subclasses of ValueError, so they are
modelled directly as `valueError`. -/
inductive PyErr where
  | fileNotFoundError
  | keyError
  | valueError
  | typeError
  | attributeError
  | osError
  | calledProcessError (retcode : Int)
  | connectionClosed
  | channelClosed
  deriving DecidableEq, Repr

/-- Whether a JSON value is a string — the Python isinstance distinction
that decides whether subprocess.Popen accepts the value as an argument. -/
def Json.isStr : Json → Bool
  | .str _ => true
  | _ => false

/-- Python dict lookup on an object spine.  A later occurrence of the key
shadows an earlier one, as when Python parses duplicate keys. -/
def dictGet : Json → String → Option Json
  | .objCons k v tl, key =>
      match dictGet tl key with
      | some r => some r
      | none => if k = key then some v else none
  | _, _ => none

/-- Python subscription of j at a string key: KeyError on a dict without the key,
TypeError on any non-dict value (str, int, list, bool, None). -/
def pyGetItemStr (j : Json) (key : String) : Except PyErr Json :=
  match j with
  | .objNil | .objCons _ _ _ =>
      match dictGet j key with
      | some v => .ok v
      | none => .error .keyError
  | _ => .error .typeError

/-- Contents of the URL cache file as seen by json.loads: either text that
fails to parse (json.loads raises a ValueError subclass) or a JSON value. -/
inductive FileContent where
  | malformed
  | wellFormed (j : Json)
  deriving DecidableEq, Repr

/-- The AMQP channel; only its open/closed status matters here. -/
structure Channel where
  isOpen : Bool
  deriving DecidableEq, Repr

/-- The player subprocess handle (`self._process`); `alive` records whether
the child is still running. -/
structure PlayerProc where
  alive : Bool
  deriving DecidableEq, Repr

/-- The mutable state of one RPiMusic worker plus the bits of the outside
world it owns: the cache file on disk (`url_cache_file` holds its current
contents, `none` = file absent) and the player subprocess. Python attributes
that may be unset (`self._process` before any start) are `Option`s. -/
structure WorkerState where
  exit_flag : Bool
  amqp_channel : Option Channel
  current_playlist_url : Json
  url_cache_file : Option FileContent
  process : Option PlayerProc
  deriving DecidableEq, Repr

/-- Observable side effects, in program order. -/
inductive Event where
  | cacheWrite (url : Json)
  | stateUpdate (url : Json)
  | ack (tag : Nat)
  | nack (tag : Nat) (requeue : Bool)
  | sigterm
  | spawn (url : Json)
  | connect
  | channelClose
  | sleep (n : Nat)
  deriving DecidableEq, Repr

/-- RPiMusic.STARTUP_TIMEOUT. -/
def STARTUP_TIMEOUT : Nat := 3

/-- How a spawned player process behaves: exits by itself at time `t` with
return code `rc`, or keeps running. -/
inductive SpawnBehavior where
  | exitsAt (t : Nat) (retcode : Int)
  | runsForever
  deriving DecidableEq, Repr

/-- `self._process.wait(timeout=STARTUP_TIMEOUT)`: returns the exit code if
the child exits within the timeout, otherwise raises TimeoutExpired
(modelled as `.error ()`). -/
def waitTimeout : SpawnBehavior → Except Unit Int
  | .exitsAt t rc => if t ≤ STARTUP_TIMEOUT then .ok rc else .error ()
  | .runsForever => .error ()

/-- RPiMusic._start_player.  Popen gets args = [PLAYER, PLAYER_ARGS,
current URL]; when the current URL is not a string, Popen raises TypeError
before any child process exists and before `self._process` is assigned.
For a string URL, Popen spawns the player (the `spawn` event), assigns
`self._process`, then waits up to STARTUP_TIMEOUT.  TimeoutExpired means
the child is still running: pass.  An exit within the timeout raises
CalledProcessError (carrying the exit code) unless `self.exit_flag` is
set.  The behaviour `b` of the child is chosen by the environment. -/
def start_player (s : WorkerState) (b : SpawnBehavior) :
    WorkerState × List Event × Except PyErr Unit :=
  match s.current_playlist_url with
  | .str _ =>
      let evs := [Event.spawn s.current_playlist_url]
      match waitTimeout b with
      | .error _ => ({ s with process := some ⟨true⟩ }, evs, .ok ())
      | .ok rc =>
          let s' := { s with process := some ⟨false⟩ }
          if s.exit_flag then (s', evs, .ok ())
          else (s', evs, .error (.calledProcessError rc))
  | _ => (s, [], .error .typeError)

/-- RPiMusic._stop_player.  `self._process.terminate()` raises
AttributeError when no process was ever started (the attribute is unset);
on a live child it sends SIGTERM, and `communicate()` then waits for the
exit; on an already-exited child both calls are no-ops. -/
def stop_player (s : WorkerState) : Except PyErr (WorkerState × List Event) :=
  match s.process with
  | none => .error .attributeError
  | some p =>
      if p.alive then .ok ({ s with process := some ⟨false⟩ }, [Event.sigterm])
      else .ok (s, [])

/-- RPiMusic._set_playlisturl.  Writes `{"playlisturl": url}` to the cache
file (json.dumps output always parses back, hence `wellFormed`), then — only
after the write — assigns `self._current_playlist_url`.  `writeOk = false`
models the file open raising an OSError, which propagates before any state
change. -/
def set_playlisturl (s : WorkerState) (writeOk : Bool) (url : Json) :
    WorkerState × List Event × Except PyErr Unit :=
  if writeOk then
    ({ s with
        url_cache_file := some (.wellFormed (.objCons "playlisturl" url .objNil)),
        current_playlist_url := url },
     [Event.cacheWrite url, Event.stateUpdate url], .ok ())
  else (s, [], .error .osError)

/-- The raw AMQP message body: bytes that fail UTF-8 decoding, text that
fails json.loads, or a parsed JSON payload. -/
inductive Body where
  | undecodable
  | unparsable
  | parsed (j : Json)
  deriving DecidableEq, Repr

/-- One inbound delivery: `method_frame.delivery_tag` and the body. -/
structure Msg where
  delivery_tag : Nat
  body : Body
  deriving DecidableEq, Repr

/-- Environment choices made while one message is handled: whether the cache
file write succeeds, and how the freshly spawned player behaves. -/
structure MsgEnv where
  cacheWriteOk : Bool
  spawn : SpawnBehavior
  deriving DecidableEq, Repr

/-- The try-block of RPiMusic._handle_msg: decode the body as UTF-8, parse it
with json.loads, then subscript the result at the playlisturl key. -/
def parse_body : Body → Except PyErr Json
  | .undecodable => .error .valueError
  | .unparsable => .error .valueError
  | .parsed j => pyGetItemStr j "playlisturl"

/-- The exception classes named in the except clause of _handle_msg:
(KeyError, ValueError, AttributeError, TypeError). -/
def caughtByHandler : PyErr → Bool
  | .keyError | .valueError | .attributeError | .typeError => true
  | _ => false

/-- RPiMusic._handle_msg.  A failure of the try-block is caught and answered
with basic_nack(requeue=False).  Otherwise (the else branch):
_set_playlisturl, basic_ack, _stop_player, _start_player — in that order;
any exception raised in the else branch propagates out of the handler. -/
def handle_msg (s : WorkerState) (m : Msg) (env : MsgEnv) :
    WorkerState × List Event × Except PyErr Unit :=
  match parse_body m.body with
  | .error e =>
      if caughtByHandler e then (s, [Event.nack m.delivery_tag false], .ok ())
      else (s, [], .error e)
  | .ok playlisturl =>
      let r₁ := set_playlisturl s env.cacheWriteOk playlisturl
      match r₁.2.2 with
      | .error e => (r₁.1, r₁.2.1, .error e)
      | .ok _ =>
          let ackEvs := r₁.2.1 ++ [Event.ack m.delivery_tag]
          match stop_player r₁.1 with
          | .error e => (r₁.1, ackEvs, .error e)
          | .ok (s₂, stopEvs) =>
              let r₃ := start_player s₂ env.spawn
              (r₃.1, ackEvs ++ stopEvs ++ r₃.2.1, r₃.2.2)

/-- RPiMusic.stop.  Sets `self.exit_flag = True` first, then tries to close
the AMQP channel, swallowing AttributeError (channel is None) and the
ConnectionClosed/ChannelClosed exceptions (channel already closed). -/
def stop (s : WorkerState) : WorkerState × List Event :=
  let s₁ := { s with exit_flag := true }
  match s₁.amqp_channel with
  | none => (s₁, [])
  | some ch =>
      if ch.isOpen then ({ s₁ with amqp_channel := some ⟨false⟩ }, [Event.channelClose])
      else (s₁, [])

/-- The configuration record produced by _parse_config (the config file
itself is external input, taken as already parsed). -/
structure Config where
  amqp_url : String
  fallback_playlist_url : String
  uuid : String
  deriving DecidableEq, Repr

/-- The cache-restoring part of RPiMusic.__init__, given the contents of the
cache file.  The try-block reads and parses the file and subscripts the
result; only FileNotFoundError and KeyError are caught and answered with
the fallback URL — a parse failure (ValueError) or a non-dict record
(TypeError) propagates out of __init__. -/
def init (cfg : Config) (cacheFile : Option FileContent) : Except PyErr WorkerState :=
  let mk : Json → WorkerState := fun url =>
    { exit_flag := false, amqp_channel := none, current_playlist_url := url,
      url_cache_file := cacheFile, process := none }
  match cacheFile with
  | none => .ok (mk (.str cfg.fallback_playlist_url))
  | some .malformed => .error .valueError
  | some (.wellFormed j) =>
      match pyGetItemStr j "playlisturl" with
      | .ok url => .ok (mk url)
      | .error .keyError => .ok (mk (.str cfg.fallback_playlist_url))
      | .error e => .error e

/-- How one blocking-consume phase ends, once every delivered message has
been handled without raising: the transport drops (pika raises
ConnectionClosed) or a stop signal arrives (RPiMusic.stop runs in the
signal handler, closing the channel, and start_consuming returns). -/
inductive ConsumeEnd where
  | connLost
  | stopSignal
  deriving DecidableEq, Repr

/-- The choices the environment makes for one iteration of the daemon while
loop: the behaviour of the spawned player, the messages delivered while
consuming (each with its own per-message environment), and how consuming
ends. -/
structure IterEnv where
  spawn : SpawnBehavior
  msgs : List (Msg × MsgEnv)
  outcome : ConsumeEnd
  deriving Repr

/-- Messages delivered one at a time, in order, to _handle_msg.  The first
exception that propagates out of the handler aborts the consume loop and is
reported as `some e`. -/
def consume_msgs : WorkerState → List (Msg × MsgEnv) →
    WorkerState × List Event × Option PyErr
  | s, [] => (s, [], none)
  | s, (m, env) :: rest =>
      let r := handle_msg s m env
      match r.2.2 with
      | .error e => (r.1, r.2.1, some e)
      | .ok _ =>
          let r' := consume_msgs r.1 rest
          (r'.1, r.2.1 ++ r'.2.1, r'.2.2)

/-- How the try-block of one while-loop iteration ends, matching the except
clauses of rpimusicd: normal return, pika ConnectionClosed, or any other
exception. -/
inductive IterResult where
  | normal
  | connClosed
  | fatal (e : PyErr)
  deriving DecidableEq, Repr

/-- The two except clauses of rpimusicd distinguish ConnectionClosed from
every other exception. -/
def classifyErr (e : PyErr) : IterResult :=
  if e = .connectionClosed then .connClosed else .fatal e

/-- One iteration of the try-block inside the while loop: setup_amqp_connection
(opens the channel), then worker.start(), i.e. _setup_amqp_queue,
_start_player and start_consuming.  Consuming handles `ie.msgs` in order;
an exception escaping the handler escapes start_consuming.  On `connLost`
pika raises ConnectionClosed with the channel dead; on `stopSignal` the
signal handler runs RPiMusic.stop and start_consuming returns normally. -/
def run_iteration (s : WorkerState) (ie : IterEnv) :
    WorkerState × List Event × IterResult :=
  let s₀ := { s with amqp_channel := some ⟨true⟩ }
  let r₁ := start_player s₀ ie.spawn
  let evs₁ := Event.connect :: r₁.2.1
  match r₁.2.2 with
  | .error e => (r₁.1, evs₁, classifyErr e)
  | .ok _ =>
      let r₂ := consume_msgs r₁.1 ie.msgs
      match r₂.2.2 with
      | some e => (r₂.1, evs₁ ++ r₂.2.1, classifyErr e)
      | none =>
          match ie.outcome with
          | .connLost =>
              ({ r₂.1 with amqp_channel := some ⟨false⟩ },
               evs₁ ++ r₂.2.1, .connClosed)
          | .stopSignal =>
              let r₃ := stop r₂.1
              (r₃.1, evs₁ ++ r₂.2.1 ++ r₃.2, .normal)

/-- The while loop of rpimusicd, with the initial `exitcode = 3`.  The loop
guard re-checks `worker.exit_flag` before every iteration.  ConnectionClosed:
sleep(5) and loop again.  Other exceptions: exitcode = 1, worker.stop(),
break.  Normal return: exitcode = 0 and loop again.  The iteration
environments double as fuel; an exhausted list returns the state reached so
far with the exitcode unchanged. -/
def runLoop : List IterEnv → WorkerState → Int → WorkerState × List Event × Int
  | [], s, code => (s, [], code)
  | ie :: rest, s, code =>
      if s.exit_flag then (s, [], code)
      else
        let r := run_iteration s ie
        match r.2.2 with
        | .fatal _ =>
            let r₂ := stop r.1
            (r₂.1, r.2.1 ++ r₂.2, 1)
        | .connClosed =>
            let r₃ := runLoop rest r.1 code
            (r₃.1, r.2.1 ++ Event.sleep 5 :: r₃.2.1, r₃.2.2)
        | .normal =>
            let r₃ := runLoop rest r.1 0
            (r₃.1, r.2.1 ++ r₃.2.1, r₃.2.2)

/-- A freshly initialized worker that fell back to the default URL. -/
def s0 : WorkerState :=
  { exit_flag := false, amqp_channel := none, current_playlist_url := .str "fb",
    url_cache_file := none, process := none }

/-- A worker in steady state: channel open, player running. -/
def sLive : WorkerState :=
  { exit_flag := false, amqp_channel := some ⟨true⟩,
    current_playlist_url := .str "old", url_cache_file := none,
    process := some ⟨true⟩ }

/-- The example URL from the specification. -/
def uStream : Json := .str "http://example.test/stream"

/-- A valid inbound message carrying `uStream`. -/
def mStream : Msg := ⟨1, .parsed (.objCons "playlisturl" uStream .objNil)⟩

/-- A benign per-message environment: cache write succeeds and the new
player keeps running. -/
def envOk : MsgEnv := ⟨true, .runsForever⟩

/-- An inbound message whose playlisturl field holds the number 42 — a
wrong-typed but present field. -/
def m42 : Msg := ⟨1, .parsed (.objCons "playlisturl" (.num 42) .objNil)⟩

/-- A loop iteration in which the player starts fine and then the
wrong-typed message `m42` arrives with a benign per-message environment. -/
def wrongTypeEnv : IterEnv := ⟨.runsForever, [(m42, envOk)], .connLost⟩

/-- A loop iteration in which the player starts fine, no message arrives and
the broker connection then drops. -/
def connIter : IterEnv := ⟨.runsForever, [], .connLost⟩

/-- A loop iteration in which the player starts fine and then a valid
message arrives whose cache write fails, so an OSError escapes the
handler. -/
def fatalEnv : IterEnv := ⟨.runsForever, [(mStream, ⟨false, .runsForever⟩)], .connLost⟩

/-- The event trace of `n` consecutive reconnect cycles, each starting a
player on URL `u` and sleeping the fixed backoff after the connection is
lost. -/
def connRetryEvents : Nat → Json → List Event
  | 0, _ => []
  | n + 1, u => Event.connect :: Event.spawn u :: Event.sleep 5 :: connRetryEvents n u

/-- RPiMusic.stop sets the exit flag unconditionally, whatever the channel
close attempt does. -/
theorem stop_sets_exit_flag (s : WorkerState) : (stop s).1.exit_flag = true := by
  unfold stop
  cases h : s.amqp_channel with
  | none => rfl
  | some ch => cases hc : ch.isOpen <;> simp [h, hc]

/-- RPiMusic.stop never touches the player process handle. -/
theorem stop_preserves_process (s : WorkerState) : (stop s).1.process = s.process := by
  unfold stop
  cases h : s.amqp_channel with
  | none => rfl
  | some ch => cases hc : ch.isOpen <;> simp [h, hc]

/-- Every error the try-block of _handle_msg can produce is one of the
exception classes its except clause catches. -/
theorem caught_of_parse_error (b : Body) (e : PyErr)
    (h : parse_body b = .error e) : caughtByHandler e = true := by
  cases b with
  | undecodable => simp [parse_body] at h; simp [← h, caughtByHandler]
  | unparsable => simp [parse_body] at h; simp [← h, caughtByHandler]
  | parsed j =>
      cases j <;> simp [parse_body, pyGetItemStr] at h <;>
        try simp [← h, caughtByHandler]
      case objNil =>
        rcases hd : dictGet Json.objNil "playlisturl" with _ | w <;>
          rw [hd] at h <;> simp at h
        simp [← h, caughtByHandler]
      case objCons k v tl =>
        rcases hd : dictGet (Json.objCons k v tl) "playlisturl" with _ | w <;>
          rw [hd] at h <;> simp at h
        simp [← h, caughtByHandler]

/-- Claim C8: for every URL string, writing it with _set_playlisturl and then
restoring the cache file in __init__ yields exactly that URL as the
current playlist URL of the worker (save/load round-trip). -/
theorem cache_save_load_roundtrip (cfg : Config) (s : WorkerState) (url : String) :
    init cfg ((set_playlisturl s true (.str url)).1.url_cache_file) =
      .ok { exit_flag := false, amqp_channel := none,
            current_playlist_url := .str url,
            url_cache_file :=
              some (.wellFormed (.objCons "playlisturl" (.str url) .objNil)),
            process := none } := by
  rfl

/-- Claim C9: if the cache-file write in _set_playlisturl raises, the in-memory
current URL is unchanged and the error propagates; on success the write
event strictly precedes the in-memory update. -/
theorem cache_write_failure_preserves_url (s : WorkerState) (url : Json) :
    (set_playlisturl s false url).1.current_playlist_url = s.current_playlist_url ∧
    (set_playlisturl s false url).2.2 = .error .osError ∧
    (set_playlisturl s true url).2.1 = [Event.cacheWrite url, Event.stateUpdate url] :=
  ⟨rfl, rfl, rfl⟩

/-- Claim C10: RPiMusic.stop always sets the exit flag (the channel close comes
after and its errors are swallowed), so once stop has run the while loop
of the daemon performs no further connect/consume iteration, whatever the
channel state was and however much fuel remains. -/
theorem stop_halts_run_loop (s : WorkerState) (env : List IterEnv) (code : Int) :
    (stop s).1.exit_flag = true ∧
    runLoop env (stop s).1 code = ((stop s).1, [], code) := by
  refine ⟨stop_sets_exit_flag s, ?_⟩
  cases env with
  | nil => rfl
  | cons ie rest => simp [runLoop, stop_sets_exit_flag s]

/-- Claim C6 (amended): RPiMusic.stop is idempotent and safe with no connection,
and _stop_player is a no-op on an already-stopped process; but _stop_player
with no process ever started is not error-free (see the counterexample). -/
theorem stop_idempotent (s : WorkerState) :
    stop (stop s).1 = ((stop s).1, []) ∧
    (s.amqp_channel = none → stop s = ({ s with exit_flag := true }, [])) ∧
    (∀ p, s.process = some p → p.alive = false → stop_player s = .ok (s, [])) := by
  refine ⟨?_, ?_, ?_⟩
  · unfold stop
    cases h : s.amqp_channel with
    | none => rfl
    | some ch => cases hc : ch.isOpen <;> simp [h, hc]
  · intro h
    unfold stop
    simp [h]
  · intro p hp ha
    cases p with
    | mk alive =>
        subst ha
        unfold stop_player
        simp [hp]

/-- Claim C6 counterexample: calling _stop_player when no player process was ever
started raises AttributeError (`self._process` is unset), so the
player-supervisor stop is not an error-free no-op with nothing owned. -/
theorem stop_player_unstarted_raises_cex :
    stop_player s0 = .error .attributeError := rfl

/-- Claim C2 (amended): __init__ falls back to the configured fallback URL
without crashing when the cache file is missing or parses to a record
lacking the `playlisturl` key; other malformed files are not handled (see
the counterexample). -/
theorem init_fallback_on_missing_file_or_key (cfg : Config) :
    init cfg none =
      .ok { exit_flag := false, amqp_channel := none,
            current_playlist_url := .str cfg.fallback_playlist_url,
            url_cache_file := none, process := none } ∧
    init cfg (some (.wellFormed .objNil)) =
      .ok { exit_flag := false, amqp_channel := none,
            current_playlist_url := .str cfg.fallback_playlist_url,
            url_cache_file := some (.wellFormed .objNil), process := none } ∧
    (∀ k v tl, dictGet (Json.objCons k v tl) "playlisturl" = none →
      init cfg (some (.wellFormed (.objCons k v tl))) =
        .ok { exit_flag := false, amqp_channel := none,
              current_playlist_url := .str cfg.fallback_playlist_url,
              url_cache_file := some (.wellFormed (.objCons k v tl)),
              process := none }) := by
  refine ⟨rfl, rfl, ?_⟩
  intro k v tl h
  unfold init pyGetItemStr
  simp [h]

/-- Claim C2 witness: a concrete cache record without the `playlisturl` key makes
__init__ fall back to the configured URL. -/
theorem init_fallback_on_missing_file_or_key_witness :
    init ⟨"amqp://x", "fb", "u1"⟩
        (some (.wellFormed (.objCons "other" (.str "y") .objNil))) =
      .ok { exit_flag := false, amqp_channel := none,
            current_playlist_url := .str "fb",
            url_cache_file := some (.wellFormed (.objCons "other" (.str "y") .objNil)),
            process := none } :=
  (init_fallback_on_missing_file_or_key ⟨"amqp://x", "fb", "u1"⟩).2.2
    "other" (.str "y") .objNil rfl

/-- Claim C2 counterexample: a cache file whose contents do not parse makes
__init__ raise a ValueError (json.JSONDecodeError is not caught), and a
parsable non-dict record raises TypeError — initialization crashes instead
of substituting the fallback URL. -/
theorem init_malformed_cache_raises_cex :
    init ⟨"amqp://x", "fb", "u1"⟩ (some .malformed) = .error .valueError ∧
    init ⟨"amqp://x", "fb", "u1"⟩ (some (.wellFormed (.str "oops"))) =
      .error .typeError :=
  ⟨rfl, rfl⟩

/-- Claim C6 witness: stopping an already-stopped player at a concrete state is
an error-free no-op. -/
theorem stop_idempotent_witness :
    stop_player { sLive with process := some ⟨false⟩ } =
      .ok ({ sLive with process := some ⟨false⟩ }, []) :=
  (stop_idempotent { sLive with process := some ⟨false⟩ }).2.2 ⟨false⟩ rfl rfl

/-- Claim C5: whenever the player is actually spawned (the current URL is a
string, so Popen accepts it), _start_player raises CalledProcessError
carrying the exit code of the child exactly when the child exits within
the 3-unit startup timeout and no deliberate stop was requested (exit_flag
is clear); when the timeout elapses with the child still running, start
succeeds and the process stays alive in the background. -/
theorem start_player_startup_failure_iff (s : WorkerState) (b : SpawnBehavior)
    (u : String) (hurl : s.current_playlist_url = .str u) :
    STARTUP_TIMEOUT = 3 ∧
    (∀ t rc, b = .exitsAt t rc → t ≤ STARTUP_TIMEOUT → s.exit_flag = false →
      (start_player s b).2.2 = .error (.calledProcessError rc)) ∧
    ((start_player s b).2.2 ≠ .ok () →
      ∃ t rc, b = .exitsAt t rc ∧ t ≤ STARTUP_TIMEOUT ∧ s.exit_flag = false ∧
        (start_player s b).2.2 = .error (.calledProcessError rc)) ∧
    (waitTimeout b = .error () →
      (start_player s b).2.2 = .ok () ∧
      (start_player s b).1.process = some ⟨true⟩) := by
  refine ⟨rfl, ?_, ?_, ?_⟩
  · intro t rc hb ht hflag
    subst hb
    simp [start_player, hurl, waitTimeout, ht, hflag]
  · intro hne
    cases b with
    | runsForever => simp [start_player, hurl, waitTimeout] at hne
    | exitsAt t rc =>
        by_cases ht : t ≤ STARTUP_TIMEOUT
        · cases hflag : s.exit_flag with
          | true => simp [start_player, hurl, waitTimeout, ht, hflag] at hne
          | false =>
              exact ⟨t, rc, rfl, ht, rfl,
                by simp [start_player, hurl, waitTimeout, ht, hflag]⟩
        · simp [start_player, hurl, waitTimeout, ht] at hne
  · intro hw
    simp [start_player, hurl, hw]

/-- Claim C5 witness: a child that dies after 1 time unit with exit code 7, while
no stop was requested, makes start fail with CalledProcessError(7). -/
theorem start_player_startup_failure_iff_witness :
    (start_player s0 (.exitsAt 1 7)).2.2 = .error (.calledProcessError 7) :=
  (start_player_startup_failure_iff s0 (.exitsAt 1 7) "fb" rfl).2.1 1 7 rfl (by decide) rfl

/-- Claim C4 (amended): every message whose body fails to decode, fails to parse,
is not a dict, or lacks the `playlisturl` field is nacked without requeue,
with no state change, no cache write, no player action, and the worker
continues (the handler returns normally).  A present `playlisturl` of wrong
type is NOT rejected (see the counterexample). -/
theorem invalid_body_rejected (s : WorkerState) (m : Msg) (env : MsgEnv) (e : PyErr)
    (h : parse_body m.body = .error e) :
    handle_msg s m env = (s, [Event.nack m.delivery_tag false], .ok ()) := by
  unfold handle_msg
  simp [h, caught_of_parse_error m.body e h]

/-- Claim C4 witness: an unparsable body at a concrete state is nacked without
requeue and changes nothing. -/
theorem invalid_body_rejected_witness :
    handle_msg sLive ⟨2, .unparsable⟩ envOk =
      (sLive, [Event.nack 2 false], .ok ()) :=
  invalid_body_rejected sLive ⟨2, .unparsable⟩ envOk .valueError rfl

/-- Claim C4 counterexample: a message whose `playlisturl` field holds the number
42 (wrong type) is NOT rejected: the handler accepts it — cache write,
in-memory update, ack and old-player stop all happen, no nack is sent —
and then Popen raises TypeError on the non-string argument, so the
exception escapes the handler and a run delivering this message ends
through the fatal branch with exit code 1 instead of the worker
continuing. -/
theorem wrong_typed_url_accepted_cex :
    (handle_msg sLive m42 envOk).2.1 =
      [Event.cacheWrite (.num 42), Event.stateUpdate (.num 42), Event.ack 1,
       Event.sigterm] ∧
    (handle_msg sLive m42 envOk).2.2 = .error .typeError ∧
    Event.nack 1 false ∉ (handle_msg sLive m42 envOk).2.1 ∧
    (runLoop [wrongTypeEnv] s0 3).2.2 = 1 :=
  ⟨rfl, rfl, by decide, rfl⟩

/-- Claim C1 (amended): on a validated message whose URL is a string the worker
executes, exactly once each and in this order: persist the URL to the
cache file, update the in-memory URL, acknowledge the message, stop the
running player, start the player on the new URL — the acknowledgment comes
after persistence and the state update but BEFORE the player stop/start.
On a validated message whose URL is not a string the worker persists,
updates, acknowledges and stops the player, and the start step then raises
TypeError out of the handler without spawning anything. -/
theorem accept_trace_order (s : WorkerState) (m : Msg) (env : MsgEnv) (url : Json)
    (hp : parse_body m.body = .ok url)
    (hw : env.cacheWriteOk = true)
    (hproc : s.process = some ⟨true⟩) :
    (∀ u, url = .str u → env.spawn = .runsForever →
      handle_msg s m env =
        ({ s with
            url_cache_file := some (.wellFormed (.objCons "playlisturl" url .objNil)),
            current_playlist_url := url,
            process := some ⟨true⟩ },
         [Event.cacheWrite url, Event.stateUpdate url, Event.ack m.delivery_tag,
          Event.sigterm, Event.spawn url],
         .ok ())) ∧
    (url.isStr = false →
      handle_msg s m env =
        ({ s with
            url_cache_file := some (.wellFormed (.objCons "playlisturl" url .objNil)),
            current_playlist_url := url,
            process := some ⟨false⟩ },
         [Event.cacheWrite url, Event.stateUpdate url, Event.ack m.delivery_tag,
          Event.sigterm],
         .error .typeError)) := by
  constructor
  · intro u hu hspawn
    subst hu
    unfold handle_msg
    simp [hp, set_playlisturl, hw, stop_player, hproc, start_player, hspawn, waitTimeout]
  · intro hns
    unfold handle_msg
    cases url <;> simp [Json.isStr] at hns <;>
      simp [hp, set_playlisturl, hw, stop_player, hproc, start_player]

/-- Claim C1 witness: the concrete valid message from the specification produces
exactly the persist, update, ack, stop, start trace, and the concrete
wrong-typed message `m42` produces persist, update, ack, stop and then a
TypeError with no spawn. -/
theorem accept_trace_order_witness :
    (handle_msg sLive mStream envOk =
      ({ sLive with
          url_cache_file := some (.wellFormed (.objCons "playlisturl" uStream .objNil)),
          current_playlist_url := uStream,
          process := some ⟨true⟩ },
       [Event.cacheWrite uStream, Event.stateUpdate uStream, Event.ack 1,
        Event.sigterm, Event.spawn uStream],
       .ok ())) ∧
    (handle_msg sLive m42 envOk =
      ({ sLive with
          url_cache_file := some (.wellFormed (.objCons "playlisturl" (.num 42) .objNil)),
          current_playlist_url := .num 42,
          process := some ⟨false⟩ },
       [Event.cacheWrite (.num 42), Event.stateUpdate (.num 42), Event.ack 1,
        Event.sigterm],
       .error .typeError)) :=
  ⟨(accept_trace_order sLive mStream envOk uStream rfl rfl rfl).1
      "http://example.test/stream" rfl rfl,
   (accept_trace_order sLive m42 envOk (.num 42) rfl rfl rfl).2 rfl⟩

/-- Claim C1 counterexample: on the example message from the specification the
acknowledgment is emitted BEFORE the player stop and restart, so the
claimed order persist, update, stop, start, acknowledge does not occur. -/
theorem accept_trace_ack_precedes_restart_cex :
    (handle_msg sLive mStream envOk).2.1 =
      [Event.cacheWrite uStream, Event.stateUpdate uStream, Event.ack 1,
       Event.sigterm, Event.spawn uStream] ∧
    (handle_msg sLive mStream envOk).2.1 ≠
      [Event.cacheWrite uStream, Event.stateUpdate uStream,
       Event.sigterm, Event.spawn uStream, Event.ack 1] :=
  ⟨rfl, by decide⟩

/-- Claim C3 (amended): when any non-ConnectionClosed exception escapes an
iteration of the run loop, the daemon runs RPiMusic.stop — setting the exit
flag and closing the broker channel with close errors swallowed — and
terminates with exit code 1; the player process is left exactly as it was,
so a still-running player is NOT stopped (see the counterexample). -/
theorem fatal_error_teardown (s : WorkerState) (ie : IterEnv) (rest : List IterEnv)
    (code : Int) (e : PyErr)
    (hflag : s.exit_flag = false)
    (hres : (run_iteration s ie).2.2 = .fatal e) :
    runLoop (ie :: rest) s code =
      ((stop (run_iteration s ie).1).1,
       (run_iteration s ie).2.1 ++ (stop (run_iteration s ie).1).2, 1) ∧
    (stop (run_iteration s ie).1).1.exit_flag = true ∧
    (stop (run_iteration s ie).1).1.process = (run_iteration s ie).1.process := by
  refine ⟨?_, stop_sets_exit_flag _, stop_preserves_process _⟩
  simp [runLoop, hflag, hres]

/-- Claim C3 witness: a concrete run in which the cache write of a valid message
raises an OSError during consuming ends through the fatal branch. -/
theorem fatal_error_teardown_witness :
    runLoop [fatalEnv] s0 3 =
      ((stop (run_iteration s0 fatalEnv).1).1,
       (run_iteration s0 fatalEnv).2.1 ++ (stop (run_iteration s0 fatalEnv).1).2, 1) ∧
    (stop (run_iteration s0 fatalEnv).1).1.exit_flag = true ∧
    (stop (run_iteration s0 fatalEnv).1).1.process = (run_iteration s0 fatalEnv).1.process :=
  fatal_error_teardown s0 fatalEnv [] 3 .osError rfl rfl

/-- Claim C3 counterexample: in that same run the daemon exits fatally with code
1 while the player process is still alive — the player is orphaned, not
stopped, contradicting the claimed full teardown. -/
theorem fatal_error_leaves_player_running_cex :
    (runLoop [fatalEnv] s0 3).2.2 = 1 ∧
    (runLoop [fatalEnv] s0 3).1.process = some ⟨true⟩ ∧
    (runLoop [fatalEnv] s0 3).1.exit_flag = true :=
  ⟨rfl, rfl, rfl⟩

/-- Claim C7: for any number n of consecutive transport-level connection losses
during consuming, with no stop requested, the run loop sleeps the fixed
5-unit backoff after each loss and then connects and consumes again: after
n such cycles the exit code is untouched, the exit flag is still clear, and
the trace is exactly n repetitions of connect, player start, sleep 5 — a
connection error alone never terminates the worker. -/
theorem conn_lost_retry_unbounded (n : Nat) (s : WorkerState) (code : Int)
    (u : String)
    (hflag : s.exit_flag = false)
    (hurl : s.current_playlist_url = .str u) :
    (runLoop (List.replicate n connIter) s code).2.2 = code ∧
    (runLoop (List.replicate n connIter) s code).1.exit_flag = false ∧
    (runLoop (List.replicate n connIter) s code).2.1 =
      connRetryEvents n s.current_playlist_url := by
  induction n generalizing s with
  | zero => exact ⟨rfl, hflag, rfl⟩
  | succ n ih =>
      have hiter : run_iteration s connIter =
          ({ s with amqp_channel := some ⟨false⟩, process := some ⟨true⟩ },
           [Event.connect, Event.spawn s.current_playlist_url], .connClosed) := by
        simp [run_iteration, start_player, hurl, waitTimeout, consume_msgs, connIter]
      have hrec := ih { exit_flag := false, amqp_channel := some ⟨false⟩,
                        current_playlist_url := .str u,
                        url_cache_file := s.url_cache_file,
                        process := some ⟨true⟩ } rfl rfl
      rw [List.replicate_succ]
      refine ⟨?_, ?_, ?_⟩ <;>
        simp [runLoop, hflag, hurl, hiter, hrec.1, hrec.2.1, hrec.2.2, connRetryEvents]

/-- Claim C7 witness: two consecutive connection losses from a fresh worker yield
two full connect/start/sleep cycles with the exit code unchanged. -/
theorem conn_lost_retry_unbounded_witness :
    (runLoop (List.replicate 2 connIter) s0 3).2.2 = 3 ∧
    (runLoop (List.replicate 2 connIter) s0 3).1.exit_flag = false ∧
    (runLoop (List.replicate 2 connIter) s0 3).2.1 =
      connRetryEvents 2 s0.current_playlist_url :=
  conn_lost_retry_unbounded 2 s0 3 "fb" rfl rfl

end RPiMusic
